import Mathlib

/-!
# Verification of the `Log` component of nocturnal-cartographer

A shallow embedding of `src/models/logger.rs` (the `Log` and `TextParams`
types and their operations) together with the small pieces of the graphics
backend that the component consumes.  Rust `usize` values are modelled as
`Nat`; `f32` scalars that only ever flow through exact arithmetic
(positions, sizes, colors) are modelled as `ℚ`; the fallible backend calls
are modelled as `Except`-returning functions, and the `unwrap` in
`set_box_position` as an `Option` result where `none` marks the panic.
-/

set_option autoImplicit false

namespace Cartographer

/-- A 4-component color `[r, g, b, a]`, embedding Rust's `[f32; 4]`. -/
abbrev Color4 : Type := ℚ × ℚ × ℚ × ℚ

/-- Embeds `ggez::graphics::PxScale { x, y }`. -/
structure PxScale where
  x : ℚ
  y : ℚ
deriving Repr, DecidableEq

/-- `impl From<f32> for PxScale` sets both components to the scalar. -/
def PxScale.ofScalar (s : ℚ) : PxScale := ⟨s, s⟩

/-- Embeds `ggez::graphics::Rect { x, y, w, h }`. -/
structure Rect where
  x : ℚ
  y : ℚ
  w : ℚ
  h : ℚ
deriving Repr, DecidableEq

/-- Embeds `ggez::graphics::DrawMode` (only the stroke variant is used). -/
inductive DrawMode where
  | stroke (width : ℚ)
deriving Repr, DecidableEq

/-- Embeds `ggez::GameError` as carried by `models::Result`; the spec calls
this failure kind `RenderResourceError`. -/
structure GameError where
  msg : String
deriving Repr, DecidableEq

/-- Modelled from the spec: the mesh-building/upload primitive of the
graphics backend ("build a stroked rectangle from (mode, rect, color) →
opaque drawable handle; may fail with a resource error").  The concrete
backend (`ggez::graphics::MeshBuilder::rectangle`) is an external
collaborator, so it is abstracted as a function that either accepts the
rectangle request or reports a `GameError`. -/
structure MeshBackend where
  rectangle : DrawMode → Rect → Color4 → Except GameError Unit

/-- Modelled from the spec: the opaque drawable mesh handle.  A mesh built
from a (non-degenerate) rectangle has a defined bounding box, which
`Drawable::dimensions` reports; `dims = none` models a mesh with no
bounding box, for which the `unwrap` in `set_box_position` would panic. -/
structure Mesh where
  dims : Option Rect
deriving Repr, DecidableEq

/-- Modelled from the spec: the drawable-surface query of the host context
("a drawable-surface query returning current width/height"). -/
structure GraphicsContext where
  drawable_size : ℚ × ℚ

/-- Embeds `ggez::graphics::TextFragment`: a piece of text with optional
font, scale and color overrides. -/
structure TextFragment where
  content : String
  font : Option String
  scale : Option PxScale
  color : Option Color4
deriving Repr, DecidableEq

/-- Embeds `ggez::graphics::Text`: an ordered sequence of fragments.
`Text::default()` is the empty sequence, `Text::add` appends a fragment. -/
structure Text where
  fragments : List TextFragment
deriving Repr, DecidableEq

def Text.empty : Text := ⟨[]⟩

def Text.add (t : Text) (f : TextFragment) : Text := ⟨t.fragments ++ [f]⟩

/-- Embeds `TextParams` from `src/models/logger.rs`. -/
structure TextParams where
  color : Color4
  line_height : PxScale
  font : String
  stroke_width : ℚ
deriving Repr, DecidableEq

namespace TextParams

/-- Embeds `TextParams::new`: `line_height.into()` turns the scalar into a
uniform `PxScale`. -/
def new (color : Color4) (line_height : ℚ) (font : String) (stroke_width : ℚ) :
    TextParams :=
  { color := color
    line_height := PxScale.ofScalar line_height
    font := font
    stroke_width := stroke_width }

/-- Embeds `TextParams::height`. -/
def height (p : TextParams) : PxScale := p.line_height

end TextParams

/-- Embeds the `Log` struct: message list (field `text`), text parameters,
cached box mesh, and the visible-window offset (`usize`, so `Nat`). -/
structure Log where
  text : List String
  text_params : TextParams
  mesh : Mesh
  offset : ℕ

namespace Log

/-- `Log::WIDTH` -/
def WIDTH : ℚ := 400

/-- `Log::HEIGHT` -/
def HEIGHT : ℚ := 88

/-- The rectangle passed to the mesh builder in `Log::new`:
`Rect { w: WIDTH, h: HEIGHT, ..Default::default() }`. -/
def boxRect : Rect := { x := 0, y := 0, w := WIDTH, h := HEIGHT }

/-- Embeds `Log::new`: asks the backend for a stroked `WIDTH × HEIGHT`
rectangle mesh (propagating its error with `?`), then returns a `Log` with
empty message list and offset 0.  The bounding box of the built mesh is the
requested rectangle. -/
def new (params : TextParams) (backend : MeshBackend) : Except GameError Log :=
  match backend.rectangle (DrawMode.stroke params.stroke_width) boxRect params.color with
  | .error e => .error e
  | .ok _ =>
      .ok { text := []
            text_params := params
            offset := 0
            mesh := { dims := some boxRect } }

/-- Embeds `Log::set_box_position`: `(offset.0, screen_height -
mesh.dimensions(ctx).unwrap().h - offset.1)`.  The `unwrap` is modelled by
returning `none` when the mesh has no bounding box (the panic case); the
receiver is `&self`, so no `Log` state is produced or mutated. -/
def set_box_position (l : Log) (ctx : GraphicsContext) (offset : ℚ × ℚ) :
    Option (ℚ × ℚ) :=
  let screen_height := ctx.drawable_size.2
  let width := offset.1
  match l.mesh.dims with
  | none => none
  | some d => some (width, screen_height - d.h - offset.2)

/-- Embeds `Log::text` (named `render_text` here because the Rust method
shares its name with the `text` field): builds a `Text` by iterating
`(start..end).rev()`, adding for each index the styled message fragment and
then a newline fragment.  `end = offset.min(vec_len).min(vec_len)`,
`start = end.saturating_sub(5)` when `vec_len > 5`, else `0`
(`Nat` subtraction is saturating).  The chained
`text.add('\n').set_scale(params.height())` adds a newline separator styled
at the configured line height. -/
def render_text (l : Log) : Text :=
  let params := l.text_params
  let vec_len := l.text.length
  let e := min (min l.offset vec_len) vec_len
  let start := if vec_len > 5 then e - 5 else 0
  (List.range' start (e - start)).reverse.foldl
    (fun t i =>
      (t.add
        { content := l.text.getD i ""
          font := some params.font
          scale := some params.height
          color := some params.color }).add
        { content := "\n"
          font := none
          scale := some params.height
          color := none })
    Text.empty

/-- Embeds `Log::push`: appends `s` to `text` and sets `offset` to the
post-append length. -/
def push (l : Log) (s : String) : Log :=
  let text := l.text ++ [s]
  { l with text := text, offset := text.length }

/-- Embeds `Log::mesh`: returns a clone of the cached mesh. -/
def meshClone (l : Log) : Mesh := l.mesh

/-- Embeds `Log::incr_offset`: `if offset < text.len() { offset += 1 }`. -/
def incr_offset (l : Log) : Log :=
  if l.offset < l.text.length then { l with offset := l.offset + 1 } else l

/-- Embeds `Log::decr_offset`:
`if (len > 5 && offset == 5) || (text.len() <= 5 && offset <= 5) { return }
else if offset > 0 { offset -= 1 }`. -/
def decr_offset (l : Log) : Log :=
  let len := l.text.length
  if (len > 5 ∧ l.offset = 5) ∨ (l.text.length ≤ 5 ∧ l.offset ≤ 5) then l
  else if l.offset > 0 then { l with offset := l.offset - 1 } else l

/-- Modelled from the spec: `color_mut` is called from
`Cartographer::key_down_event` (`src/main.rs`) but its definition is not
present in `src/models/logger.rs`.  Per the spec it "rebuilds `text_params`'
color field (and, implicitly in the reference, the displayed text color)
without touching `messages` or `offset`", rebuilding the cached box shape
with the new color ("the cached box shape is rebuilt only at construction
and on color change"), and "fails only if rebuilding any backend drawable
resource fails". -/
def color_mut (l : Log) (backend : MeshBackend) (new_color : Color4) :
    Except GameError Log :=
  match backend.rectangle (DrawMode.stroke l.text_params.stroke_width) boxRect new_color with
  | .error e => .error e
  | .ok _ =>
      .ok { l with
              text_params := { l.text_params with color := new_color }
              mesh := { dims := some boxRect } }

/-- The windowing policy's upper bound as the spec states it:
`end = min(offset, n)`. -/
def specEnd (l : Log) : ℕ := min l.offset l.text.length

/-- The windowing policy's lower bound as the spec states it:
`start = end - 5` if `n > 5`, else `0`. -/
def specStart (l : Log) : ℕ :=
  if 5 < l.text.length then l.specEnd - 5 else 0

/-- Sequencing a list of pushes, for the "sequence of push calls"
properties. -/
def pushAll (l : Log) (ss : List String) : Log :=
  ss.foldl Log.push l

end Log

/-- The states of `Log` reachable from a successful `Log::new` by any
sequence of `push`, `incr_offset` and `decr_offset` calls. -/
inductive Reachable : Log → Prop
  | new (params : TextParams) (backend : MeshBackend) (l : Log) :
      Log.new params backend = .ok l → Reachable l
  | push (l : Log) (s : String) : Reachable l → Reachable (l.push s)
  | incr (l : Log) : Reachable l → Reachable l.incr_offset
  | decr (l : Log) : Reachable l → Reachable l.decr_offset

/-! ## Shared helper lemmas and concrete sample states -/

/-- Folding the body of the `for` loop of `Log::text` over any index list
appends, for each index, the message fragment and the newline fragment. -/
theorem Text.foldl_add_two (f g : ℕ → TextFragment) :
    ∀ (L : List ℕ) (t : Text),
      (L.foldl (fun t i => (t.add (f i)).add (g i)) t).fragments
        = t.fragments ++ L.flatMap (fun i => [f i, g i])
  | [], t => by simp
  | a :: as, t => by
      rw [List.foldl_cons, Text.foldl_add_two f g as]
      simp [Text.add]

/-- A sequence of pushes appends its messages in call order. -/
theorem Log.pushAll_text :
    ∀ (ss : List String) (l : Log), (Log.pushAll l ss).text = l.text ++ ss
  | [], l => by simp [Log.pushAll]
  | s :: ss, l => by
      have ih := Log.pushAll_text ss (l.push s)
      simp only [Log.pushAll, List.foldl_cons] at ih ⊢
      rw [ih]
      simp [Log.push]

/-- The inductive invariant of reachable states: `offset` stays within
`[0, len]`; while more than 5 messages are stored it never drops below 5;
while at most 5 are stored it equals `len`. -/
theorem reachable_invariant (l : Log) (h : Reachable l) :
    l.offset ≤ l.text.length ∧
      (5 < l.text.length → 5 ≤ l.offset) ∧
      (l.text.length ≤ 5 → l.offset = l.text.length) := by
  induction h with
  | new params backend l hnew =>
      unfold Log.new at hnew
      split at hnew
      · cases hnew
      · cases hnew
        simp
  | push l s _ ih =>
      refine ⟨?_, ?_, ?_⟩ <;> simp [Log.push] <;> omega
  | incr l _ ih =>
      obtain ⟨h1, h2, h3⟩ := ih
      simp only [Log.incr_offset]
      split
      · refine ⟨?_, ?_, ?_⟩ <;> dsimp <;> omega
      · exact ⟨h1, h2, h3⟩
  | decr l _ ih =>
      obtain ⟨h1, h2, h3⟩ := ih
      simp only [Log.decr_offset]
      split
      · exact ⟨h1, h2, h3⟩
      · split
        · refine ⟨?_, ?_, ?_⟩ <;> dsimp <;> omega
        · exact ⟨h1, h2, h3⟩

/-- Text parameters used by the concrete sample states (the values
`Cartographer::new` passes: palette foreground, `TEXT_HEIGHT = 16`,
`"JetBrains Mono"`, `THIN_LINE = 1`). -/
def sampleParams : TextParams :=
  TextParams.new (1, 1, 1, 1) 16 "JetBrains Mono" 1

/-- A backend that accepts every rectangle request. -/
def okBackend : MeshBackend :=
  { rectangle := fun _ _ _ => .ok () }

/-- The log `Log.new sampleParams okBackend` produces. -/
def log0 : Log :=
  { text := []
    text_params := sampleParams
    offset := 0
    mesh := { dims := some Log.boxRect } }

/-- `log0` after pushing two messages. -/
def log2 : Log := log0.pushAll ["m1", "m2"]

/-- `log0` after pushing six messages. -/
def log6 : Log := log0.pushAll ["m1", "m2", "m3", "m4", "m5", "m6"]

/-- The drawable surface of the 1280×720 window `main` requests. -/
def sampleCtx : GraphicsContext := ⟨(1280, 720)⟩

/-- `log0` after the spec-modelled color update to opaque black. -/
def log0black : Log :=
  { log0 with
      text_params := { log0.text_params with color := (0, 0, 0, 1) }
      mesh := { dims := some Log.boxRect } }

theorem log0_reachable : Reachable log0 :=
  Reachable.new sampleParams okBackend log0 rfl

theorem log2_reachable : Reachable log2 :=
  Reachable.push _ "m2" (Reachable.push _ "m1" log0_reachable)

theorem log6_reachable : Reachable log6 :=
  Reachable.push _ "m6" (Reachable.push _ "m5" (Reachable.push _ "m4"
    (Reachable.push _ "m3" (Reachable.push _ "m2"
      (Reachable.push _ "m1" log0_reachable)))))

/-! ## Claim theorems -/

/-- C1: for every reachable `Log` state with `len(messages) > 0`, a call to
`decr_offset` never brings `offset` below `min(5, len(messages))`; when
`len(messages) > 5` the floor is 5 and a call at `offset == 5` leaves
`offset` unchanged, and when `len(messages) <= 5` the offset is never
decremented at all (in particular never below 0). -/
theorem C1_decr_offset_floor (l : Log) (h : Reachable l)
    (hlen : 0 < l.text.length) :
    min 5 l.text.length ≤ l.decr_offset.offset ∧
      (5 < l.text.length → l.offset = 5 → l.decr_offset.offset = l.offset) ∧
      (l.text.length ≤ 5 → l.decr_offset.offset = l.offset) := by
  obtain ⟨h1, h2, h3⟩ := reachable_invariant l h
  simp only [Log.decr_offset]
  split
  · rename_i hg
    exact ⟨by omega, fun _ _ => rfl, fun _ => rfl⟩
  · rename_i hg
    split
    · rename_i hpos
      refine ⟨?_, ?_, ?_⟩ <;> dsimp <;> omega
    · rename_i hpos
      refine ⟨?_, ?_, ?_⟩ <;> omega

/-- Witness for C1 at the concrete reachable state `log6`
(six messages, offset 6). -/
theorem C1_decr_offset_floor_witness :
    0 < log6.text.length ∧
      (min 5 log6.text.length ≤ log6.decr_offset.offset ∧
        (5 < log6.text.length → log6.offset = 5 →
          log6.decr_offset.offset = log6.offset) ∧
        (log6.text.length ≤ 5 → log6.decr_offset.offset = log6.offset)) :=
  ⟨by decide, C1_decr_offset_floor log6 log6_reachable (by decide)⟩

/-- C3: `push s` appends `s` at the end of `messages` and then sets
`offset` to the post-append length; consequently any sequence of pushes
yields exactly the pushed strings, in call order, appended to the prior
contents. -/
theorem C3_push_appends (l : Log) (s : String) (ss : List String) :
    (l.push s).text = l.text ++ [s] ∧
      (l.push s).offset = (l.push s).text.length ∧
      (Log.pushAll l ss).text = l.text ++ ss :=
  ⟨rfl, rfl, Log.pushAll_text ss l⟩

/-- C4: every state reachable from construction via `push`, `incr_offset`
and `decr_offset` satisfies `offset ≤ len(messages)` (the lower bound
`0 ≤ offset` holds by the `usize`/`Nat` type), and each of the three
operations preserves the invariant. -/
theorem C4_offset_invariant :
    (∀ l : Log, Reachable l → l.offset ≤ l.text.length) ∧
      (∀ (l : Log) (s : String), l.offset ≤ l.text.length →
        (l.push s).offset ≤ (l.push s).text.length) ∧
      (∀ l : Log, l.offset ≤ l.text.length →
        l.incr_offset.offset ≤ l.incr_offset.text.length) ∧
      (∀ l : Log, l.offset ≤ l.text.length →
        l.decr_offset.offset ≤ l.decr_offset.text.length) := by
  refine ⟨fun l h => (reachable_invariant l h).1, ?_, ?_, ?_⟩
  · intro l s _
    simp [Log.push]
  · intro l h
    simp only [Log.incr_offset]
    split <;> (try dsimp) <;> omega
  · intro l h
    simp only [Log.decr_offset]
    split
    · exact h
    · split <;> (try dsimp) <;> omega

/-- Witness for C4 at the concrete reachable state `log6`. -/
theorem C4_offset_invariant_witness : log6.offset ≤ log6.text.length :=
  C4_offset_invariant.1 log6 log6_reachable

/-- C5: `incr_offset` increments `offset` by exactly 1 when
`offset < len(messages)` and leaves the state unchanged otherwise; under
the invariant `offset ≤ len` the result never exceeds `len`, and on a log
with 0 messages it is a no-op. -/
theorem C5_incr_offset (l : Log) :
    (l.offset < l.text.length → l.incr_offset.offset = l.offset + 1) ∧
      (¬ l.offset < l.text.length → l.incr_offset = l) ∧
      (l.offset ≤ l.text.length →
        l.incr_offset.offset ≤ l.text.length) ∧
      (l.text.length = 0 → l.incr_offset = l) := by
  refine ⟨?_, ?_, ?_, ?_⟩
  · intro h
    simp [Log.incr_offset, if_pos h]
  · intro h
    simp [Log.incr_offset, if_neg h]
  · intro h
    simp only [Log.incr_offset]
    split <;> (try dsimp) <;> omega
  · intro h
    have : ¬ l.offset < l.text.length := by omega
    simp [Log.incr_offset, if_neg this]

/-- Witness for C5 at the concrete state `log0` (0 messages, offset 0). -/
theorem C5_incr_offset_witness :
    log0.text.length = 0 ∧ log0.incr_offset = log0 :=
  ⟨by decide, (C5_incr_offset log0).2.2.2 (by decide)⟩

/-- C9: with at most 5 messages and `offset` within `[0, len(messages)]`,
`decr_offset` leaves the state completely unchanged. -/
theorem C9_decr_offset_noop_small (l : Log) (hlen : l.text.length ≤ 5)
    (hoff : l.offset ≤ l.text.length) :
    l.decr_offset = l := by
  simp only [Log.decr_offset]
  rw [if_pos]
  exact Or.inr ⟨hlen, le_trans hoff hlen⟩

/-- Witness for C9 at the concrete state `log2` (two messages, offset 2,
which is greater than 0). -/
theorem C9_decr_offset_noop_small_witness :
    log2.text.length ≤ 5 ∧ log2.offset ≤ log2.text.length ∧
      0 < log2.offset ∧ log2.decr_offset = log2 :=
  ⟨by decide, by decide, by decide,
    C9_decr_offset_noop_small log2 (by decide) (by decide)⟩

/-- C2: `text()` produces exactly the messages with indices in
`[start, end)` in reverse index order (index `end-1` first), where
`end = min(offset, len)` and `start = end - 5` (saturating) when `len > 5`,
else `0`; each message fragment carries the font, scale and color of
`text_params` and is followed by a newline fragment at the same scale, and
the window holds at most 5 message lines. -/
theorem C2_render_text_window (l : Log) :
    (l.render_text).fragments =
      (List.range' l.specStart (l.specEnd - l.specStart)).reverse.flatMap
        (fun i =>
          [{ content := l.text.getD i ""
             font := some l.text_params.font
             scale := some l.text_params.height
             color := some l.text_params.color },
           { content := "\n"
             font := none
             scale := some l.text_params.height
             color := none }]) ∧
      l.specEnd - l.specStart ≤ 5 ∧ l.specEnd ≤ l.text.length := by
  have hmin : min (min l.offset l.text.length) l.text.length
      = min l.offset l.text.length := by omega
  refine ⟨?_, ?_, ?_⟩
  · simp only [Log.render_text, Log.specStart, Log.specEnd, hmin]
    rw [Text.foldl_add_two]
    simp [Text.empty]
  · simp only [Log.specStart, Log.specEnd]
    split <;> omega
  · simp only [Log.specEnd]
    omega

/-- C6: `set_box_position` with a mesh whose bounding box is the
`WIDTH × HEIGHT` construction rectangle returns
`(offset_x, drawable_height - 88 - offset_y)`; instantiated at offsets
`(50, 50)` it yields `(50, H - 88 - 50)`.  The receiver is read-only, so
no `Log` state is mutated. -/
theorem C6_set_box_position (l : Log) (ctx : GraphicsContext) (ox oy : ℚ)
    (h : l.mesh.dims = some Log.boxRect) :
    l.set_box_position ctx (ox, oy) =
        some (ox, ctx.drawable_size.2 - 88 - oy) ∧
      l.set_box_position ctx (50, 50) =
        some (50, ctx.drawable_size.2 - 88 - 50) := by
  constructor <;>
    simp [Log.set_box_position, h, Log.boxRect, Log.HEIGHT]

/-- Witness for C6 at `log0` on a 1280×720 surface. -/
theorem C6_set_box_position_witness :
    log0.mesh.dims = some Log.boxRect ∧
      (log0.set_box_position sampleCtx (50, 50) =
          some (50, (720 : ℚ) - 88 - 50) ∧
        log0.set_box_position sampleCtx (50, 50) =
          some (50, (720 : ℚ) - 88 - 50)) :=
  ⟨rfl, C6_set_box_position log0 sampleCtx 50 50 rfl⟩

/-- C7: `Log::new` fails exactly when the backend rejects the
stroked-rectangle mesh request, propagating that `GameError`; on success
the log starts with no messages and offset 0; and `push`, `incr_offset`
and `decr_offset` are total functions (they always produce a result
`Log`, with no error path). -/
theorem C7_new_total (params : TextParams) (backend : MeshBackend) :
    (∀ e : GameError,
        Log.new params backend = .error e ↔
          backend.rectangle (DrawMode.stroke params.stroke_width) Log.boxRect
              params.color = .error e) ∧
      (∀ l : Log, Log.new params backend = .ok l →
        l.text = [] ∧ l.offset = 0) ∧
      (∀ (l : Log) (s : String), ∃ l2 : Log, l.push s = l2) ∧
      (∀ l : Log, ∃ l2 : Log, l.incr_offset = l2) ∧
      (∀ l : Log, ∃ l2 : Log, l.decr_offset = l2) := by
  refine ⟨?_, ?_, fun l s => ⟨_, rfl⟩, fun l => ⟨_, rfl⟩, fun l => ⟨_, rfl⟩⟩
  · intro e
    unfold Log.new
    split
    · rename_i e2 heq
      rw [heq]
      simp
    · rename_i u heq
      rw [heq]
      simp
  · intro l h
    unfold Log.new at h
    split at h
    · cases h
    · cases h
      exact ⟨rfl, rfl⟩

/-- Witness for C7: with an accepting backend, construction succeeds and
the initial state is empty with offset 0. -/
theorem C7_new_total_witness : log0.text = [] ∧ log0.offset = 0 :=
  (C7_new_total sampleParams okBackend).2.1 log0 rfl

/-- C8: the (spec-modelled) `color_mut` replaces the color field of
`text_params` while leaving `messages` and `offset` unchanged, and fails
exactly when the backend rejects rebuilding the drawable rectangle. -/
theorem C8_color_mut (l : Log) (backend : MeshBackend) (c : Color4) :
    (∀ l2 : Log, l.color_mut backend c = .ok l2 →
        l2.text_params.color = c ∧ l2.text = l.text ∧
          l2.offset = l.offset) ∧
      (∀ e : GameError,
        l.color_mut backend c = .error e ↔
          backend.rectangle (DrawMode.stroke l.text_params.stroke_width)
              Log.boxRect c = .error e) := by
  constructor
  · intro l2 h
    unfold Log.color_mut at h
    split at h
    · cases h
    · cases h
      exact ⟨rfl, rfl, rfl⟩
  · intro e
    unfold Log.color_mut
    split
    · rename_i e2 heq
      rw [heq]
      simp
    · rename_i u heq
      rw [heq]
      simp

/-- Witness for C8: updating `log0` to opaque black succeeds and keeps
messages and offset. -/
theorem C8_color_mut_witness :
    log0black.text_params.color = (0, 0, 0, 1) ∧
      log0black.text = log0.text ∧ log0black.offset = log0.offset :=
  (C8_color_mut log0 okBackend (0, 0, 0, 1)).1 log0black rfl

/-- C10: a `Log` successfully returned by `Log::new` carries a mesh built
from the non-degenerate 400 × 88 rectangle, so its bounding box is
defined and `set_box_position` always produces a position (the modelled
`unwrap` never hits `none`, i.e. never panics). -/
theorem C10_new_mesh_defined (params : TextParams) (backend : MeshBackend)
    (l : Log) (ctx : GraphicsContext) (off : ℚ × ℚ)
    (h : Log.new params backend = .ok l) :
    l.mesh.dims = some Log.boxRect ∧ Log.boxRect.w = 400 ∧
      Log.boxRect.h = 88 ∧ (l.set_box_position ctx off).isSome = true := by
  have hd : l.mesh.dims = some Log.boxRect := by
    unfold Log.new at h
    split at h
    · cases h
    · cases h
      rfl
  refine ⟨hd, rfl, rfl, ?_⟩
  simp [Log.set_box_position, hd]

/-- Witness for C10 at `log0` on a 1280×720 surface. -/
theorem C10_new_mesh_defined_witness :
    log0.mesh.dims = some Log.boxRect ∧ Log.boxRect.w = 400 ∧
      Log.boxRect.h = 88 ∧
      (log0.set_box_position sampleCtx (50, 50)).isSome = true :=
  C10_new_mesh_defined sampleParams okBackend log0 sampleCtx (50, 50) rfl

end Cartographer
